import Mathlib

/-! Shallow embedding of `src/lib.rs` of the rust-kzg-node repository: a napi
wrapper around an external KZG library, providing blob-to-commitment and
cell-proof computation, singly and in (rayon-parallel) batches.

Bytes are modelled as `Fin 256`, byte buffers as lists.  The external crypto
library (`kzg` / `rust_kzg_blst` crates) is out of scope of the repository:
its three entry points (`load_trusted_setup_rust`, `blob_to_kzg_commitment_raw`
together with `G1.to_bytes`, and `compute_cells_and_kzg_proofs_raw`) are
modelled as abstract deterministic functions gathered in a `KzgBackend`
structure, polymorphic in the opaque types (`FsKZGSettings`, `G1`, the cell
array) that the wrapper never inspects.  Fixed-size Rust arrays (`[u8; N]`)
become subtypes carrying the length invariant, exactly as the Rust types
guarantee it.  The rayon `par_iter().map(f).collect::<Result<Vec<_>, _>>()`
pipeline is modelled by `try_collect`, an order-preserving short-circuiting
collection: rayon's `FromParallelIterator for Result` guarantees that a
successful collect holds every item's result at that item's input index and
that a failing collect surfaces an error produced by one of the items.
-/

namespace RustKzgNode

/-- A byte, `u8`. -/
abbrev Byte := Fin 256

/-- A byte buffer (`Uint8Array` contents / `&[u8]`). -/
abbrev Bytes := List Byte

/-- Constant `kzg::eth::BYTES_PER_BLOB` = 4096 field elements of 32 bytes. -/
def BYTES_PER_BLOB : Nat := 131072

/-- Constant `kzg::eth::BYTES_PER_PROOF`. -/
def BYTES_PER_PROOF : Nat := 48

/-- Constant `kzg::eth::CELLS_PER_EXT_BLOB`: the protocol-defined cell count,
the length of both fixed arrays in the external type `CellsKzgProofs`. -/
def CELLS_PER_EXT_BLOB : Nat := 128

/-- A fixed-size blob, `[u8; BYTES_PER_BLOB]`. -/
abbrev BlobArray := { l : Bytes // l.length = BYTES_PER_BLOB }

/-- A 48-byte value, `[u8; 48]`: a compressed G1 point or a cell proof
(`BYTES_PER_PROOF = 48`). -/
abbrev Bytes48 := { l : Bytes // l.length = 48 }

/-- The proofs half of the external `CellsKzgProofs` type:
`[[u8; BYTES_PER_PROOF]; CELLS_PER_EXT_BLOB]`. -/
abbrev ProofsArray := { l : List Bytes48 // l.length = CELLS_PER_EXT_BLOB }

/-- The napi `Status` values this wrapper uses. -/
inductive Status where
  | InvalidArg
  | GenericFailure
deriving DecidableEq, Repr

/-- An error as `napi::Error::new(status, reason)` builds it. -/
structure NapiError where
  status : Status
  reason : String
deriving DecidableEq, Repr

/-- The external KZG library surface used by `lib.rs`, abstract over the
opaque types `Settings` (`FsKZGSettings`), `G1` and `Cells`.  All functions
are (Lean) functions, hence deterministic and pure, matching the assumption
the wrapper makes about the crypto library. -/
structure KzgBackend (Settings G1 Cells : Type) where
  load_trusted_setup_rust : Bytes → Bytes → Bytes → Except String Settings
  blob_to_kzg_commitment_raw : BlobArray → Settings → Except String G1
  g1_to_bytes : G1 → Bytes48
  compute_cells_and_kzg_proofs_raw :
    BlobArray → Settings → Except String (Cells × ProofsArray)

/-- The `KzgWrapper` struct: holds the loaded trusted-setup settings. -/
structure KzgWrapper (Settings : Type) where
  settings : Settings

/-- Lowercase hex digit for a nibble, as the Rust `hex` crate emits it. -/
def hexDigit (n : Nat) : Char :=
  if n < 10 then Char.ofNat (48 + n) else Char.ofNat (87 + n)

/-- The two lowercase hex digits of one byte, high nibble first. -/
def encodeByte (b : Byte) : List Char :=
  [hexDigit (b.val / 16), hexDigit (b.val % 16)]

/-- Function `hex::encode`: lowercase hex string of a byte buffer, no
separators. -/
def encode (bs : Bytes) : String :=
  ⟨(bs.map encodeByte).flatten⟩

/-- The error `parse_blob_array` builds on a length mismatch: status
`InvalidArg`, message carrying the expected and the actual length. -/
def invalidBlobLengthError (actual : Nat) : NapiError :=
  ⟨Status.InvalidArg,
    "Invalid blob length: expected " ++ toString BYTES_PER_BLOB ++
      " bytes, got " ++ toString actual ++ " bytes"⟩

/-- Function `KzgWrapper::parse_blob_array`: validates the buffer length and returns
an owned fixed-size copy, or an `InvalidArg` error naming expected and
actual lengths. -/
def parse_blob_array (blob_bytes : Bytes) : Except NapiError BlobArray :=
  if h : blob_bytes.length = BYTES_PER_BLOB then
    Except.ok ⟨blob_bytes, h⟩
  else
    Except.error (invalidBlobLengthError blob_bytes.length)

/-- Function `KzgWrapper::process_single_commitment`: validate, call the external
commitment function, hex-encode the 48-byte compressed point with a `0x`
prefix; wrap a crypto failure as `GenericFailure`. -/
def process_single_commitment {Settings G1 Cells : Type}
    (B : KzgBackend Settings G1 Cells) (w : KzgWrapper Settings)
    (blob_bytes : Bytes) : Except NapiError String :=
  match parse_blob_array blob_bytes with
  | Except.error e => Except.error e
  | Except.ok blob_array =>
    match B.blob_to_kzg_commitment_raw blob_array w.settings with
    | Except.error e =>
      Except.error ⟨Status.GenericFailure,
        "Failed to convert blob to commitment: " ++ e⟩
    | Except.ok commitment =>
      let commitment_bytes : Bytes48 := B.g1_to_bytes commitment
      Except.ok ("0x" ++ encode commitment_bytes.val)

/-- Function `KzgWrapper::process_single_blob_proof`: validate, call the external
cells-and-proofs function, keep only the proofs and hex-encode each with a
`0x` prefix in the library's order; wrap a crypto failure as
`GenericFailure`. -/
def process_single_blob_proof {Settings G1 Cells : Type}
    (B : KzgBackend Settings G1 Cells) (w : KzgWrapper Settings)
    (blob_bytes : Bytes) : Except NapiError (List String) :=
  match parse_blob_array blob_bytes with
  | Except.error e => Except.error e
  | Except.ok blob_array =>
    match B.compute_cells_and_kzg_proofs_raw blob_array w.settings with
    | Except.error e =>
      Except.error ⟨Status.GenericFailure,
        "Failed to compute cell proofs: " ++ e⟩
    | Except.ok (_, proofs) =>
      Except.ok (proofs.val.map fun proof_bytes => "0x" ++ encode proof_bytes.val)

/-- Function `KzgWrapper::load_kzg`: forward the three byte buffers to the external
loader; wrap its failure as `GenericFailure` carrying the cause, otherwise
return the wrapper owning the settings. -/
def load_kzg {Settings G1 Cells : Type} (B : KzgBackend Settings G1 Cells)
    (g1_monomial_bytes g1_lagrange_bytes g2_monomial_bytes : Bytes) :
    Except NapiError (KzgWrapper Settings) :=
  match B.load_trusted_setup_rust g1_monomial_bytes g1_lagrange_bytes
      g2_monomial_bytes with
  | Except.error e =>
    Except.error ⟨Status.GenericFailure, "Failed to load trusted setup: " ++ e⟩
  | Except.ok settings => Except.ok ⟨settings⟩

/-- Method `KzgWrapper::blob_to_commitment`. -/
def blob_to_commitment {Settings G1 Cells : Type}
    (B : KzgBackend Settings G1 Cells) (w : KzgWrapper Settings)
    (blob_bytes : Bytes) : Except NapiError String :=
  process_single_commitment B w blob_bytes

/-- Method `KzgWrapper::compute_cell_proofs`. -/
def compute_cell_proofs {Settings G1 Cells : Type}
    (B : KzgBackend Settings G1 Cells) (w : KzgWrapper Settings)
    (blob_bytes : Bytes) : Except NapiError (List String) :=
  process_single_blob_proof B w blob_bytes

/-- Order-preserving, short-circuiting collection: the model of rayon's
`par_iter().map(f).collect::<Result<Vec<_>, _>>()`.  A successful collect
holds `f` of every input at that input's index; a failing collect surfaces
an error produced by `f` on one of the inputs. -/
def try_collect {α ε β : Type} (f : α → Except ε β) : List α → Except ε (List β)
  | [] => Except.ok []
  | a :: as =>
    match f a with
    | Except.error e => Except.error e
    | Except.ok b =>
      match try_collect f as with
      | Except.error e => Except.error e
      | Except.ok bs => Except.ok (b :: bs)

/-- Method `KzgWrapper::blob_to_commitment_batch`. -/
def blob_to_commitment_batch {Settings G1 Cells : Type}
    (B : KzgBackend Settings G1 Cells) (w : KzgWrapper Settings)
    (blobs_bytes : List Bytes) : Except NapiError (List String) :=
  try_collect (fun blob_bytes => process_single_commitment B w blob_bytes)
    blobs_bytes

/-- Method `KzgWrapper::compute_cell_proofs_batch`. -/
def compute_cell_proofs_batch {Settings G1 Cells : Type}
    (B : KzgBackend Settings G1 Cells) (w : KzgWrapper Settings)
    (blobs_bytes : List Bytes) : Except NapiError (List (List String)) :=
  try_collect (fun blob_bytes => process_single_blob_proof B w blob_bytes)
    blobs_bytes

/-! Hex-format predicate used by the spec's testable properties. -/

/-- Character class `[0-9a-f]`. -/
def isLowerHexDigit (c : Char) : Bool :=
  (48 ≤ c.toNat && c.toNat ≤ 57) || (97 ≤ c.toNat && c.toNat ≤ 102)

/-- A string matching the spec's pattern for 48-byte values:
`0x` followed by exactly 96 lowercase hex characters. -/
def matchesHex96 (s : String) : Prop :=
  s.data.length = 98 ∧ s.data.take 2 = ['0', 'x'] ∧
    ∀ c ∈ s.data.drop 2, isLowerHexDigit c = true

/-! Helper lemmas about the embedded definitions. -/

theorem parse_blob_array_ok {b : Bytes} (h : b.length = BYTES_PER_BLOB) :
    parse_blob_array b = Except.ok ⟨b, h⟩ := by
  unfold parse_blob_array
  exact dif_pos h

theorem parse_blob_array_error {b : Bytes} (h : b.length ≠ BYTES_PER_BLOB) :
    parse_blob_array b = Except.error (invalidBlobLengthError b.length) := by
  unfold parse_blob_array
  exact dif_neg h

theorem hexDigit_isLowerHex {n : Nat} (h : n < 16) :
    isLowerHexDigit (hexDigit n) = true := by
  interval_cases n <;> decide

theorem encodeByte_isLowerHex (b : Byte) :
    ∀ c ∈ encodeByte b, isLowerHexDigit c = true := by
  intro c hc
  have hb : b.val < 256 := b.isLt
  simp only [encodeByte, List.mem_cons, List.mem_singleton, List.not_mem_nil,
    or_false] at hc
  rcases hc with rfl | rfl
  · exact hexDigit_isLowerHex (by omega)
  · exact hexDigit_isLowerHex (by omega)

theorem encode_data (bs : Bytes) :
    (encode bs).data = (bs.map encodeByte).flatten := rfl

theorem encode_length (bs : Bytes) : (encode bs).data.length = 2 * bs.length := by
  induction bs with
  | nil => rfl
  | cons b bs ih =>
    simp only [encode_data, List.map_cons, List.flatten_cons,
      List.length_append] at *
    simp [encodeByte] at *
    omega

theorem encode_isLowerHex (bs : Bytes) :
    ∀ c ∈ (encode bs).data, isLowerHexDigit c = true := by
  intro c hc
  rw [encode_data] at hc
  rcases List.mem_flatten.mp hc with ⟨l, hl, hcl⟩
  rcases List.mem_map.mp hl with ⟨b, _, rfl⟩
  exact encodeByte_isLowerHex b c hcl

theorem hex_string_matches (bs : Bytes) (h : bs.length = 48) :
    matchesHex96 ("0x" ++ encode bs) := by
  have hdata : ("0x" ++ encode bs).data = '0' :: 'x' :: (encode bs).data := by
    rw [String.data_append]
    rfl
  refine ⟨?_, ?_, ?_⟩
  · rw [hdata]
    simp [encode_length bs, h]
  · rw [hdata]
    rfl
  · intro c hc
    rw [hdata] at hc
    simp only [List.drop_succ_cons, List.drop_zero] at hc
    exact encode_isLowerHex bs c hc

theorem process_single_commitment_parse_err {Settings G1 Cells : Type}
    (B : KzgBackend Settings G1 Cells) (w : KzgWrapper Settings) {b : Bytes}
    {e : NapiError} (hp : parse_blob_array b = Except.error e) :
    process_single_commitment B w b = Except.error e := by
  unfold process_single_commitment
  rw [hp]

theorem process_single_commitment_crypto_err {Settings G1 Cells : Type}
    (B : KzgBackend Settings G1 Cells) (w : KzgWrapper Settings) {b : Bytes}
    {blob : BlobArray} {cause : String}
    (hp : parse_blob_array b = Except.ok blob)
    (hc : B.blob_to_kzg_commitment_raw blob w.settings = Except.error cause) :
    process_single_commitment B w b =
      Except.error ⟨Status.GenericFailure,
        "Failed to convert blob to commitment: " ++ cause⟩ := by
  simp only [process_single_commitment, hp, hc]

theorem process_single_commitment_ok {Settings G1 Cells : Type}
    (B : KzgBackend Settings G1 Cells) (w : KzgWrapper Settings) {b : Bytes}
    {blob : BlobArray} {g : G1}
    (hp : parse_blob_array b = Except.ok blob)
    (hc : B.blob_to_kzg_commitment_raw blob w.settings = Except.ok g) :
    process_single_commitment B w b =
      Except.ok ("0x" ++ encode (B.g1_to_bytes g).val) := by
  simp only [process_single_commitment, hp, hc]

theorem process_single_blob_proof_parse_err {Settings G1 Cells : Type}
    (B : KzgBackend Settings G1 Cells) (w : KzgWrapper Settings) {b : Bytes}
    {e : NapiError} (hp : parse_blob_array b = Except.error e) :
    process_single_blob_proof B w b = Except.error e := by
  unfold process_single_blob_proof
  rw [hp]

theorem process_single_blob_proof_crypto_err {Settings G1 Cells : Type}
    (B : KzgBackend Settings G1 Cells) (w : KzgWrapper Settings) {b : Bytes}
    {blob : BlobArray} {cause : String}
    (hp : parse_blob_array b = Except.ok blob)
    (hc : B.compute_cells_and_kzg_proofs_raw blob w.settings =
      Except.error cause) :
    process_single_blob_proof B w b =
      Except.error ⟨Status.GenericFailure,
        "Failed to compute cell proofs: " ++ cause⟩ := by
  simp only [process_single_blob_proof, hp, hc]

theorem process_single_blob_proof_ok {Settings G1 Cells : Type}
    (B : KzgBackend Settings G1 Cells) (w : KzgWrapper Settings) {b : Bytes}
    {blob : BlobArray} {cells : Cells} {proofs : ProofsArray}
    (hp : parse_blob_array b = Except.ok blob)
    (hc : B.compute_cells_and_kzg_proofs_raw blob w.settings =
      Except.ok (cells, proofs)) :
    process_single_blob_proof B w b =
      Except.ok (proofs.val.map fun proof_bytes => "0x" ++ encode proof_bytes.val) := by
  simp only [process_single_blob_proof, hp, hc]

theorem load_kzg_err {Settings G1 Cells : Type}
    (B : KzgBackend Settings G1 Cells) {g1m g1l g2m : Bytes} {cause : String}
    (h : B.load_trusted_setup_rust g1m g1l g2m = Except.error cause) :
    load_kzg B g1m g1l g2m =
      Except.error ⟨Status.GenericFailure,
        "Failed to load trusted setup: " ++ cause⟩ := by
  unfold load_kzg
  rw [h]

theorem load_kzg_ok {Settings G1 Cells : Type}
    (B : KzgBackend Settings G1 Cells) {g1m g1l g2m : Bytes}
    {settings : Settings}
    (h : B.load_trusted_setup_rust g1m g1l g2m = Except.ok settings) :
    load_kzg B g1m g1l g2m = Except.ok ⟨settings⟩ := by
  unfold load_kzg
  rw [h]

theorem try_collect_nil {α ε β : Type} (f : α → Except ε β) :
    try_collect f [] = Except.ok [] := rfl

theorem try_collect_ok_length {α ε β : Type} {f : α → Except ε β}
    {l : List α} {out : List β} (h : try_collect f l = Except.ok out) :
    out.length = l.length := by
  induction l generalizing out with
  | nil =>
    rw [try_collect_nil] at h
    cases h
    rfl
  | cons a as ih =>
    rw [try_collect] at h
    cases hfa : f a with
    | error e => rw [hfa] at h; cases h
    | ok b =>
      rw [hfa] at h
      cases hrest : try_collect f as with
      | error e => rw [hrest] at h; cases h
      | ok bs =>
        rw [hrest] at h
        cases h
        simp [ih hrest]

theorem try_collect_ok_get {α ε β : Type} {f : α → Except ε β}
    {l : List α} {out : List β} (h : try_collect f l = Except.ok out) :
    ∀ i (hi : i < l.length) (hi' : i < out.length),
      f (l.get ⟨i, hi⟩) = Except.ok (out.get ⟨i, hi'⟩) := by
  induction l generalizing out with
  | nil =>
    intro i hi
    exact absurd hi (by simp)
  | cons a as ih =>
    rw [try_collect] at h
    cases hfa : f a with
    | error e => rw [hfa] at h; cases h
    | ok b =>
      rw [hfa] at h
      cases hrest : try_collect f as with
      | error e => rw [hrest] at h; cases h
      | ok bs =>
        rw [hrest] at h
        cases h
        intro i hi hi'
        cases i with
        | zero => simpa using hfa
        | succ j =>
          exact ih hrest j (by simpa using hi) (by simpa using hi')

theorem try_collect_error_mem {α ε β : Type} {f : α → Except ε β}
    {l : List α} {e : ε} (h : try_collect f l = Except.error e) :
    ∃ a ∈ l, f a = Except.error e := by
  induction l with
  | nil =>
    rw [try_collect_nil] at h
    cases h
  | cons a as ih =>
    rw [try_collect] at h
    cases hfa : f a with
    | error e' =>
      rw [hfa] at h
      cases h
      exact ⟨a, by simp, hfa⟩
    | ok b =>
      rw [hfa] at h
      cases hrest : try_collect f as with
      | error e' =>
        rw [hrest] at h
        cases h
        rcases ih hrest with ⟨a', ha', hfa'⟩
        exact ⟨a', by simp [ha'], hfa'⟩
      | ok bs => rw [hrest] at h; cases h

theorem try_collect_ok_of_all {α ε β : Type} {f : α → Except ε β}
    {l : List α} (h : ∀ a ∈ l, ∃ b, f a = Except.ok b) :
    ∃ out, try_collect f l = Except.ok out := by
  induction l with
  | nil => exact ⟨[], rfl⟩
  | cons a as ih =>
    rcases h a (by simp) with ⟨b, hb⟩
    rcases ih (fun a' ha' => h a' (by simp [ha'])) with ⟨bs, hbs⟩
    exact ⟨b :: bs, by rw [try_collect, hb, hbs]⟩

theorem try_collect_error_of_mem {α ε β : Type} {f : α → Except ε β}
    {l : List α} {a : α} {e : ε} (ha : a ∈ l) (hfa : f a = Except.error e) :
    ∃ e', try_collect f l = Except.error e' := by
  induction l with
  | nil => cases ha
  | cons x xs ih =>
    rw [try_collect]
    cases hfx : f x with
    | error e' => exact ⟨e', rfl⟩
    | ok b =>
      have hxs : a ∈ xs := by
        rcases List.mem_cons.mp ha with rfl | hxs
        · rw [hfa] at hfx; cases hfx
        · exact hxs
      rcases ih hxs with ⟨e', he'⟩
      exact ⟨e', by rw [he']⟩

/-! Concrete instances used to witness the theorems on explicit inputs. -/

/-- A wrapper over trivial settings. -/
def trivialWrapper : KzgWrapper Unit := ⟨()⟩

/-- The all-zero 48-byte value. -/
def zero48 : Bytes48 := ⟨List.replicate 48 0, by simp⟩

/-- A proofs array holding the all-zero proof in every cell. -/
def zeroProofs : ProofsArray := ⟨List.replicate CELLS_PER_EXT_BLOB zero48, by simp⟩

/-- The hex rendering of the all-zero 48-byte value. -/
def zeroHex48 : String := "0x" ++ encode zero48.val

/-- A backend whose external calls all succeed, returning zero values. -/
def trivialBackend : KzgBackend Unit Unit Unit where
  load_trusted_setup_rust := fun _ _ _ => Except.ok ()
  blob_to_kzg_commitment_raw := fun _ _ => Except.ok ()
  g1_to_bytes := fun _ => zero48
  compute_cells_and_kzg_proofs_raw := fun _ _ => Except.ok ((), zeroProofs)

/-- A backend whose external calls all fail with cause "boom". -/
def failBackend : KzgBackend Unit Unit Unit where
  load_trusted_setup_rust := fun _ _ _ => Except.error "boom"
  blob_to_kzg_commitment_raw := fun _ _ => Except.error "boom"
  g1_to_bytes := fun _ => zero48
  compute_cells_and_kzg_proofs_raw := fun _ _ => Except.error "boom"

/-- The all-zero blob buffer of the correct length. -/
def zeroBytes : Bytes := List.replicate BYTES_PER_BLOB 0

theorem zeroBytes_length : zeroBytes.length = BYTES_PER_BLOB := by
  simp [zeroBytes]

/-- The all-zero validated blob. -/
def zeroBlob : BlobArray := ⟨zeroBytes, zeroBytes_length⟩

theorem parse_zeroBytes : parse_blob_array zeroBytes = Except.ok zeroBlob :=
  parse_blob_array_ok zeroBytes_length

theorem nil_length_ne : ([] : Bytes).length ≠ BYTES_PER_BLOB := by decide

theorem parse_nil :
    parse_blob_array [] = Except.error (invalidBlobLengthError 0) :=
  parse_blob_array_error nil_length_ne

theorem commit_zero :
    process_single_commitment trivialBackend trivialWrapper zeroBytes =
      Except.ok zeroHex48 :=
  process_single_commitment_ok trivialBackend trivialWrapper parse_zeroBytes rfl

theorem proofs_zero :
    process_single_blob_proof trivialBackend trivialWrapper zeroBytes =
      Except.ok (List.replicate CELLS_PER_EXT_BLOB zeroHex48) := by
  rw [process_single_blob_proof_ok trivialBackend trivialWrapper parse_zeroBytes
    rfl]
  rw [show zeroProofs.val = List.replicate CELLS_PER_EXT_BLOB zero48 from rfl,
    List.map_replicate]
  rfl

theorem commit_nil :
    process_single_commitment trivialBackend trivialWrapper [] =
      Except.error (invalidBlobLengthError 0) :=
  process_single_commitment_parse_err trivialBackend trivialWrapper parse_nil

theorem proofs_nil :
    process_single_blob_proof trivialBackend trivialWrapper [] =
      Except.error (invalidBlobLengthError 0) :=
  process_single_blob_proof_parse_err trivialBackend trivialWrapper parse_nil

theorem commit_zero_fail :
    process_single_commitment failBackend trivialWrapper zeroBytes =
      Except.error ⟨Status.GenericFailure,
        "Failed to convert blob to commitment: " ++ "boom"⟩ :=
  process_single_commitment_crypto_err failBackend trivialWrapper parse_zeroBytes
    rfl

theorem batch_commit_nil_item :
    blob_to_commitment_batch trivialBackend trivialWrapper [[]] =
      Except.error (invalidBlobLengthError 0) := by
  unfold blob_to_commitment_batch
  rw [try_collect, commit_nil]

/-! The claims. -/

/-- Claim C1: blob validation succeeds iff the buffer has exactly
`BYTES_PER_BLOB` bytes; on any other length (empty and oversized included)
both operations fail with the `InvalidBlobLength` error carrying expected and
actual lengths, and the result is the same under every backend, so the
external crypto function is never invoked. -/
theorem C1_blob_length_validation {S G C S2 G2 C2 : Type}
    (B : KzgBackend S G C) (w : KzgWrapper S)
    (B2 : KzgBackend S2 G2 C2) (w2 : KzgWrapper S2) (b : Bytes) :
    ((∃ blob, parse_blob_array b = Except.ok blob) ↔
      b.length = BYTES_PER_BLOB)
    ∧ (b.length ≠ BYTES_PER_BLOB →
        blob_to_commitment B w b =
          Except.error (invalidBlobLengthError b.length)
        ∧ compute_cell_proofs B w b =
          Except.error (invalidBlobLengthError b.length)
        ∧ blob_to_commitment B w b = blob_to_commitment B2 w2 b
        ∧ compute_cell_proofs B w b = compute_cell_proofs B2 w2 b) := by
  constructor
  · constructor
    · rintro ⟨blob, hb⟩
      by_contra h
      rw [parse_blob_array_error h] at hb
      cases hb
    · intro h
      exact ⟨⟨b, h⟩, parse_blob_array_ok h⟩
  · intro h
    have hp := parse_blob_array_error h
    refine ⟨process_single_commitment_parse_err B w hp,
      process_single_blob_proof_parse_err B w hp, ?_, ?_⟩
    · show process_single_commitment B w b = process_single_commitment B2 w2 b
      rw [process_single_commitment_parse_err B w hp,
        process_single_commitment_parse_err B2 w2 hp]
    · show process_single_blob_proof B w b = process_single_blob_proof B2 w2 b
      rw [process_single_blob_proof_parse_err B w hp,
        process_single_blob_proof_parse_err B2 w2 hp]

/-- Witness for C1 at the empty buffer. -/
theorem C1_blob_length_validation_witness :
    blob_to_commitment trivialBackend trivialWrapper [] =
      Except.error (invalidBlobLengthError 0)
    ∧ blob_to_commitment trivialBackend trivialWrapper [] =
      blob_to_commitment failBackend trivialWrapper [] := by
  have h := (C1_blob_length_validation trivialBackend trivialWrapper
    failBackend trivialWrapper []).2 nil_length_ne
  exact ⟨h.1, h.2.2.1⟩

/-- Claim C2: batch calls are all-or-nothing: a successful batch has exactly
one output per input, a failing batch reports an error genuinely produced by
processing one of the inputs, and any failing item makes the whole batch
fail. -/
theorem C2_batch_all_or_nothing {S G C : Type} (B : KzgBackend S G C)
    (w : KzgWrapper S) (blobs : List Bytes) :
    (∀ out, blob_to_commitment_batch B w blobs = Except.ok out →
        out.length = blobs.length)
    ∧ (∀ e, blob_to_commitment_batch B w blobs = Except.error e →
        ∃ b ∈ blobs, process_single_commitment B w b = Except.error e)
    ∧ ((∃ b ∈ blobs, ∃ e, process_single_commitment B w b = Except.error e) →
        ∃ e, blob_to_commitment_batch B w blobs = Except.error e)
    ∧ (∀ out, compute_cell_proofs_batch B w blobs = Except.ok out →
        out.length = blobs.length)
    ∧ (∀ e, compute_cell_proofs_batch B w blobs = Except.error e →
        ∃ b ∈ blobs, process_single_blob_proof B w b = Except.error e)
    ∧ ((∃ b ∈ blobs, ∃ e, process_single_blob_proof B w b = Except.error e) →
        ∃ e, compute_cell_proofs_batch B w blobs = Except.error e) := by
  refine ⟨fun out h => try_collect_ok_length h,
    fun e h => try_collect_error_mem h, ?_,
    fun out h => try_collect_ok_length h,
    fun e h => try_collect_error_mem h, ?_⟩
  · rintro ⟨b, hb, e, he⟩
    exact try_collect_error_of_mem hb he
  · rintro ⟨b, hb, e, he⟩
    exact try_collect_error_of_mem hb he

/-- Witness for C2: a batch holding one invalid-length blob fails. -/
theorem C2_batch_all_or_nothing_witness :
    ∃ e, blob_to_commitment_batch trivialBackend trivialWrapper [[]] =
      Except.error e :=
  (C2_batch_all_or_nothing trivialBackend trivialWrapper [[]]).2.2.1
    ⟨[], by simp, invalidBlobLengthError 0, commit_nil⟩

/-- Claim C3: when every single-item call succeeds, the batch call succeeds,
its output has the input's length, and position `i` of the output is the
single-item result on input `i`, for both operations. -/
theorem C3_batch_single_equivalence {S G C : Type} (B : KzgBackend S G C)
    (w : KzgWrapper S) (blobs : List Bytes)
    (hc : ∀ b ∈ blobs, ∃ s, process_single_commitment B w b = Except.ok s)
    (hp : ∀ b ∈ blobs, ∃ ps, process_single_blob_proof B w b = Except.ok ps) :
    (∃ out, blob_to_commitment_batch B w blobs = Except.ok out
      ∧ out.length = blobs.length
      ∧ ∀ i (hi : i < blobs.length) (hi' : i < out.length),
          process_single_commitment B w (blobs.get ⟨i, hi⟩) =
            Except.ok (out.get ⟨i, hi'⟩))
    ∧ (∃ out, compute_cell_proofs_batch B w blobs = Except.ok out
      ∧ out.length = blobs.length
      ∧ ∀ i (hi : i < blobs.length) (hi' : i < out.length),
          process_single_blob_proof B w (blobs.get ⟨i, hi⟩) =
            Except.ok (out.get ⟨i, hi'⟩)) := by
  constructor
  · rcases try_collect_ok_of_all hc with ⟨out, hout⟩
    exact ⟨out, hout, try_collect_ok_length hout, try_collect_ok_get hout⟩
  · rcases try_collect_ok_of_all hp with ⟨out, hout⟩
    exact ⟨out, hout, try_collect_ok_length hout, try_collect_ok_get hout⟩

/-- Witness for C3 on the singleton batch of the all-zero blob. -/
theorem C3_batch_single_equivalence_witness :
    ∃ out, blob_to_commitment_batch trivialBackend trivialWrapper [zeroBytes] =
      Except.ok out
      ∧ out.length = ([zeroBytes] : List Bytes).length
      ∧ ∀ i (hi : i < ([zeroBytes] : List Bytes).length)
          (hi' : i < out.length),
          process_single_commitment trivialBackend trivialWrapper
              (([zeroBytes] : List Bytes).get ⟨i, hi⟩) =
            Except.ok (out.get ⟨i, hi'⟩) :=
  (C3_batch_single_equivalence trivialBackend trivialWrapper [zeroBytes]
    (fun b hb => by
      rcases List.mem_singleton.mp hb with rfl
      exact ⟨zeroHex48, commit_zero⟩)
    (fun b hb => by
      rcases List.mem_singleton.mp hb with rfl
      exact ⟨List.replicate CELLS_PER_EXT_BLOB zeroHex48, proofs_zero⟩)).1

/-- Claim C4: every successful commitment is a string of the shape
`0x` followed by exactly 96 lowercase hex characters (48 bytes). -/
theorem C4_commitment_hex_format {S G C : Type} (B : KzgBackend S G C)
    (w : KzgWrapper S) (b : Bytes) (s : String)
    (h : blob_to_commitment B w b = Except.ok s) :
    matchesHex96 s := by
  have h' : process_single_commitment B w b = Except.ok s := h
  cases hp : parse_blob_array b with
  | error e =>
    rw [process_single_commitment_parse_err B w hp] at h'
    cases h'
  | ok blob =>
    cases hc : B.blob_to_kzg_commitment_raw blob w.settings with
    | error cause =>
      rw [process_single_commitment_crypto_err B w hp hc] at h'
      cases h'
    | ok g =>
      rw [process_single_commitment_ok B w hp hc] at h'
      injection h' with h''
      rw [← h'']
      exact hex_string_matches _ (B.g1_to_bytes g).property

/-- Witness for C4: the trivial backend's commitment on the zero blob. -/
theorem C4_commitment_hex_format_witness : matchesHex96 zeroHex48 :=
  C4_commitment_hex_format trivialBackend trivialWrapper zeroBytes zeroHex48
    commit_zero

/-- Claim C5: every successful cell-proof computation returns one hex string
per cell (the protocol cell count), each of the shape `0x` plus 96 lowercase
hex characters, and the sequence is exactly the hex rendering of the
library's proofs in the library's order; cells are not surfaced. -/
theorem C5_cell_proofs_format {S G C : Type} (B : KzgBackend S G C)
    (w : KzgWrapper S) (b : Bytes) (out : List String)
    (h : compute_cell_proofs B w b = Except.ok out) :
    out.length = CELLS_PER_EXT_BLOB
    ∧ (∀ s ∈ out, matchesHex96 s)
    ∧ ∃ blob cells proofs,
        parse_blob_array b = Except.ok blob
        ∧ B.compute_cells_and_kzg_proofs_raw blob w.settings =
            Except.ok (cells, proofs)
        ∧ out = proofs.val.map fun p => "0x" ++ encode p.val := by
  have h' : process_single_blob_proof B w b = Except.ok out := h
  cases hp : parse_blob_array b with
  | error e =>
    rw [process_single_blob_proof_parse_err B w hp] at h'
    cases h'
  | ok blob =>
    cases hc : B.compute_cells_and_kzg_proofs_raw blob w.settings with
    | error cause =>
      rw [process_single_blob_proof_crypto_err B w hp hc] at h'
      cases h'
    | ok pr =>
      obtain ⟨cells, proofs⟩ := pr
      rw [process_single_blob_proof_ok B w hp hc] at h'
      injection h' with h''
      refine ⟨?_, ?_, blob, cells, proofs, rfl, hc, h''.symm⟩
      · rw [← h'', List.length_map, proofs.property]
      · intro s hs
        rw [← h''] at hs
        rcases List.mem_map.mp hs with ⟨p, _, rfl⟩
        exact hex_string_matches _ p.property

/-- Witness for C5: the trivial backend's proofs on the zero blob. -/
theorem C5_cell_proofs_format_witness :
    (List.replicate CELLS_PER_EXT_BLOB zeroHex48).length = CELLS_PER_EXT_BLOB :=
  (C5_cell_proofs_format trivialBackend trivialWrapper zeroBytes
    (List.replicate CELLS_PER_EXT_BLOB zeroHex48) proofs_zero).1

/-- Claim C6: both operations are deterministic functions of the blob and
the setup: calls on equal settings and equal blob bytes return identical
results (the external functions being modelled as pure functions). -/
theorem C6_determinism {S G C : Type} (B : KzgBackend S G C)
    (w w2 : KzgWrapper S) (b b2 : Bytes)
    (hw : w.settings = w2.settings) (hb : b = b2) :
    blob_to_commitment B w b = blob_to_commitment B w2 b2
    ∧ compute_cell_proofs B w b = compute_cell_proofs B w2 b2 := by
  have hw' : w = w2 := by
    cases w
    cases w2
    simpa using hw
  subst hw'
  subst hb
  exact ⟨rfl, rfl⟩

/-- Witness for C6 at the zero blob. -/
theorem C6_determinism_witness :
    blob_to_commitment trivialBackend trivialWrapper zeroBytes =
      blob_to_commitment trivialBackend trivialWrapper zeroBytes :=
  (C6_determinism trivialBackend trivialWrapper trivialWrapper zeroBytes
    zeroBytes rfl rfl).1

/-- Claim C7: no error is swallowed or downgraded.  A failing setup load
yields `GenericFailure` carrying the cause and no wrapper; a successful load
yields the wrapper and nothing else; a crypto failure on a validated blob
yields `GenericFailure` carrying the cause, with the operation-specific
message; a validation failure is propagated unchanged by both operations. -/
theorem C7_error_propagation {S G C : Type} (B : KzgBackend S G C)
    (w : KzgWrapper S) (g1m g1l g2m b : Bytes) :
    (∀ cause, B.load_trusted_setup_rust g1m g1l g2m = Except.error cause →
        load_kzg B g1m g1l g2m = Except.error
          ⟨Status.GenericFailure, "Failed to load trusted setup: " ++ cause⟩)
    ∧ (∀ settings, B.load_trusted_setup_rust g1m g1l g2m = Except.ok settings →
        load_kzg B g1m g1l g2m = Except.ok ⟨settings⟩)
    ∧ (∀ blob cause, parse_blob_array b = Except.ok blob →
        B.blob_to_kzg_commitment_raw blob w.settings = Except.error cause →
        blob_to_commitment B w b = Except.error
          ⟨Status.GenericFailure,
            "Failed to convert blob to commitment: " ++ cause⟩)
    ∧ (∀ blob cause, parse_blob_array b = Except.ok blob →
        B.compute_cells_and_kzg_proofs_raw blob w.settings =
          Except.error cause →
        compute_cell_proofs B w b = Except.error
          ⟨Status.GenericFailure, "Failed to compute cell proofs: " ++ cause⟩)
    ∧ (∀ e, parse_blob_array b = Except.error e →
        blob_to_commitment B w b = Except.error e
        ∧ compute_cell_proofs B w b = Except.error e) :=
  ⟨fun _ h => load_kzg_err B h,
    fun _ h => load_kzg_ok B h,
    fun _ _ hp hc => process_single_commitment_crypto_err B w hp hc,
    fun _ _ hp hc => process_single_blob_proof_crypto_err B w hp hc,
    fun _ hp => ⟨process_single_commitment_parse_err B w hp,
      process_single_blob_proof_parse_err B w hp⟩⟩

/-- Witness for C7: the failing backend's loader and commitment calls. -/
theorem C7_error_propagation_witness :
    load_kzg failBackend [] [] [] = Except.error
      ⟨Status.GenericFailure, "Failed to load trusted setup: " ++ "boom"⟩
    ∧ blob_to_commitment failBackend trivialWrapper zeroBytes = Except.error
      ⟨Status.GenericFailure,
        "Failed to convert blob to commitment: " ++ "boom"⟩ := by
  have h := C7_error_propagation failBackend trivialWrapper [] [] [] zeroBytes
  exact ⟨h.1 "boom" rfl, h.2.2.1 zeroBlob "boom" parse_zeroBytes rfl⟩

/-- Counterexample for claim C8: on the concrete batch `[[]]` the error that
terminates the batch is byte-for-byte the failing item's own error — status
`InvalidArg` and the plain length message, with no index and no
batch-specific wrapping — so no distinct `BatchItemFailed` error is ever
surfaced. -/
theorem C8_counterexample :
    blob_to_commitment_batch trivialBackend trivialWrapper [[]] =
      Except.error (invalidBlobLengthError 0)
    ∧ process_single_commitment trivialBackend trivialWrapper [] =
      Except.error (invalidBlobLengthError 0)
    ∧ (invalidBlobLengthError 0).status = Status.InvalidArg
    ∧ (invalidBlobLengthError 0).reason =
      "Invalid blob length: expected 131072 bytes, got 0 bytes" :=
  ⟨batch_commit_nil_item, commit_nil, rfl, by decide⟩

/-- Claim C8 (amended): when any item of a batch call fails, the batch fails
with an error that is exactly the failing item's own error, propagated
unchanged (no wrapper and no index), for both batch operations. -/
theorem C8_batch_error_is_item_error {S G C : Type} (B : KzgBackend S G C)
    (w : KzgWrapper S) (blobs : List Bytes) :
    (∀ e, blob_to_commitment_batch B w blobs = Except.error e →
        ∃ b ∈ blobs, process_single_commitment B w b = Except.error e)
    ∧ (∀ e, compute_cell_proofs_batch B w blobs = Except.error e →
        ∃ b ∈ blobs, process_single_blob_proof B w b = Except.error e) :=
  ⟨fun _ h => try_collect_error_mem h, fun _ h => try_collect_error_mem h⟩

/-- Witness for the amended C8 on the batch `[[]]`. -/
theorem C8_batch_error_is_item_error_witness :
    ∃ b ∈ ([[]] : List Bytes),
      process_single_commitment trivialBackend trivialWrapper b =
        Except.error (invalidBlobLengthError 0) :=
  (C8_batch_error_is_item_error trivialBackend trivialWrapper [[]]).1
    (invalidBlobLengthError 0) batch_commit_nil_item

/-- Claim C9: batch calls on the empty input list succeed and return the
empty output list. -/
theorem C9_batch_empty {S G C : Type} (B : KzgBackend S G C)
    (w : KzgWrapper S) :
    blob_to_commitment_batch B w [] = Except.ok []
    ∧ compute_cell_proofs_batch B w [] = Except.ok [] :=
  ⟨rfl, rfl⟩

/-- Claim C10: error classes are distinguishable by status code: an error of
either operation has status `InvalidArg` iff the input length differs from
`BYTES_PER_BLOB` (and such inputs do fail with that status), while every
setup-load failure has status `GenericFailure`. -/
theorem C10_status_classification {S G C : Type} (B : KzgBackend S G C)
    (w : KzgWrapper S) (b g1m g1l g2m : Bytes) :
    (∀ e, blob_to_commitment B w b = Except.error e →
        (e.status = Status.InvalidArg ↔ b.length ≠ BYTES_PER_BLOB))
    ∧ (∀ e, compute_cell_proofs B w b = Except.error e →
        (e.status = Status.InvalidArg ↔ b.length ≠ BYTES_PER_BLOB))
    ∧ (b.length ≠ BYTES_PER_BLOB →
        ∃ e, blob_to_commitment B w b = Except.error e
          ∧ e.status = Status.InvalidArg
          ∧ compute_cell_proofs B w b = Except.error e)
    ∧ (∀ e, load_kzg B g1m g1l g2m = Except.error e →
        e.status = Status.GenericFailure) := by
  refine ⟨?_, ?_, ?_, ?_⟩
  · intro e he
    have he' : process_single_commitment B w b = Except.error e := he
    by_cases h : b.length = BYTES_PER_BLOB
    · cases hc : B.blob_to_kzg_commitment_raw ⟨b, h⟩ w.settings with
      | error cause =>
        rw [process_single_commitment_crypto_err B w (parse_blob_array_ok h)
          hc] at he'
        injection he' with h''
        rw [← h'']
        simp [h]
      | ok g =>
        rw [process_single_commitment_ok B w (parse_blob_array_ok h) hc] at he'
        cases he'
    · rw [process_single_commitment_parse_err B w
        (parse_blob_array_error h)] at he'
      injection he' with h''
      rw [← h'']
      simp [invalidBlobLengthError, h]
  · intro e he
    have he' : process_single_blob_proof B w b = Except.error e := he
    by_cases h : b.length = BYTES_PER_BLOB
    · cases hc : B.compute_cells_and_kzg_proofs_raw ⟨b, h⟩ w.settings with
      | error cause =>
        rw [process_single_blob_proof_crypto_err B w (parse_blob_array_ok h)
          hc] at he'
        injection he' with h''
        rw [← h'']
        simp [h]
      | ok pr =>
        obtain ⟨cells, proofs⟩ := pr
        rw [process_single_blob_proof_ok B w (parse_blob_array_ok h) hc] at he'
        cases he'
    · rw [process_single_blob_proof_parse_err B w
        (parse_blob_array_error h)] at he'
      injection he' with h''
      rw [← h'']
      simp [invalidBlobLengthError, h]
  · intro h
    refine ⟨invalidBlobLengthError b.length,
      process_single_commitment_parse_err B w (parse_blob_array_error h), rfl,
      process_single_blob_proof_parse_err B w (parse_blob_array_error h)⟩
  · intro e he
    cases hl : B.load_trusted_setup_rust g1m g1l g2m with
    | error cause =>
      rw [load_kzg_err B hl] at he
      injection he with h''
      rw [← h'']
    | ok settings =>
      rw [load_kzg_ok B hl] at he
      cases he

/-- Witness for C10 at the empty buffer. -/
theorem C10_status_classification_witness :
    (invalidBlobLengthError 0).status = Status.InvalidArg ↔
      ([] : Bytes).length ≠ BYTES_PER_BLOB :=
  (C10_status_classification trivialBackend trivialWrapper [] [] [] []).1
    (invalidBlobLengthError 0) commit_nil

end RustKzgNode
